import Mathlib

/-!
Shallow embedding of the configuration-resolution core of the briefcase
repository: `src/briefcase/commands.py` (BaseCommand and its
`parse_config` method) and `src/briefcase/__main__.py` (the process
boundary).  The collaborators that are not among the sources
(`briefcase.config.parse_config`, `briefcase.config.AppConfig`,
`briefcase.exceptions`) are modelled from the spec where noted.
-/

namespace Briefcase

/-- A Python value, as far as the configuration layer distinguishes them:
truthiness is the only operation the source applies to a declared default. -/
inductive Value where
  | none
  | bool (b : Bool)
  | int (n : Int)
  | str (s : String)
deriving DecidableEq, Repr

/-- Python truthiness: `None`, `False`, `0` and `""` are falsy. -/
def Value.truthy : Value → Bool
  | .none => false
  | .bool b => b
  | .int n => n != 0
  | .str s => s != ""

/-- One argparse action: a destination name together with the default value
it was declared with (`None` when the declaration gave no default). -/
structure Action where
  dest : String
  default : Value
deriving DecidableEq, Repr

/-- `BaseCommand.__init__`: the set of command line options that have default
values, `{action.dest for action in parser._actions if action.default}`. -/
def defaultOptions (actions : List Action) : List String :=
  (actions.filter fun a => a.default.truthy).map Action.dest

/-- The option state a `BaseCommand` instance carries after `__init__`:
`self.default_options` and the parsed values `self.options`
(`getattr(self.options, name)` is total over declared options, so the
namespace is modelled as a total function). -/
structure BaseCommand where
  default_options : List String
  options : String → Value

/-- `BaseCommand.__init__` after `add_options(parser)`: the default-bearing
classification is computed from the declarations (`parser._actions`) alone,
then the command line values are parsed into `self.options`. -/
def BaseCommand.init (actions : List Action) (parsedValues : String → Value) :
    BaseCommand :=
  { default_options := defaultOptions actions, options := parsedValues }

/-- A Python dict keyed by strings, viewed through lookup. -/
abbrev Dict := String → Option Value

/-- `d.update(e)`: every key present in `e` wins over `d`. -/
def dictUpdate (d e : Dict) : Dict :=
  fun k => match e k with
    | some v => some v
    | Option.none => d k

/-- The seed dict comprehension in `parse_config`:
`{option: getattr(self.options, option) for option in self.config_options
if option in self.default_options}`. -/
def defaultLayer (cfg defs : List String) (opts : String → Value) : Dict :=
  fun k => if k ∈ cfg ∧ k ∈ defs then some (opts k) else Option.none

/-- The explicit-override dict comprehension in `parse_config`:
`{option: getattr(self.options, option) for option in self.config_options
if option not in self.default_options}`. -/
def explicitLayer (cfg defs : List String) (opts : String → Value) : Dict :=
  fun k => if k ∈ cfg ∧ k ∉ defs then some (opts k) else Option.none

/-- A RawAppConfig from the file parser, as a dict. -/
def rawDict (raw : List (String × Value)) : Dict :=
  fun k => raw.lookup k

/-- The per-app merge in `BaseCommand.parse_config`: seed with the default
layer, `update` with the parsed file config, `update` with the explicit
layer. -/
def resolveAppConfig (cfg defs : List String) (opts : String → Value)
    (raw : List (String × Value)) : Dict :=
  dictUpdate (dictUpdate (defaultLayer cfg defs opts) (rawDict raw))
    (explicitLayer cfg defs opts)

/-- Modelled from the spec: the `briefcase.exceptions` module is not among
the sources.  A BriefcaseError carries a user-facing message and an
`error_code` used at the process boundary. -/
structure BriefcaseError where
  msg : String
  error_code : Int
deriving DecidableEq, Repr

/-- Modelled from the spec: `BriefcaseConfigError` is a BriefcaseError with
a non-zero exit code ("any ConfigError exits with a non-zero code"). -/
def BriefcaseConfigError (m : String) : BriefcaseError :=
  { msg := m, error_code := 100 }

/-- One parameter of `AppConfig.__init__` as seen by `inspect.signature`:
its name and whether the declaration supplies a default. -/
structure Param where
  name : String
  hasDefault : Bool
deriving DecidableEq, Repr

/-- The introspection in the except-branch of `parse_config`: the parameter
names with no default, excluding `self` and `kwargs`. -/
def requiredArgs (params : List Param) : List String :=
  (params.filter fun p =>
    !p.hasDefault && p.name != "self" && p.name != "kwargs").map Param.name

/-- `missing_args = required_args - app_config.keys()` as the set of
required names absent from the merged mapping (enumerated here in
declaration order; the source iterates a Python set, whose order is
unspecified and is threaded through `parse_config` as `setOrder`). -/
def missingArgs (required : List String) (app_config : Dict) : List String :=
  required.filter fun r => (app_config r).isNone

/-- `"'{arg}'".format(arg=arg)`. -/
def quoteArg (a : String) : String :=
  "\x27" ++ a ++ "\x27"

/-- The message built in the except-branch:
`"Configuration for '{app_name}' is incomplete (missing {missing})"` with
`missing = ', '.join("'{arg}'" for arg in missing_args)`. -/
def incompleteMessage (app_name : String) (missingList : List String) :
    String :=
  "Configuration for \x27" ++ app_name ++ "\x27 is incomplete (missing "
    ++ String.intercalate ", " (missingList.map quoteArg) ++ ")"

/-- The validated configuration record for one application; on success the
constructor keeps the full merged mapping. -/
abbrev AppConfig := Dict

/-- Modelled from the spec: `briefcase.config.AppConfig` is not among the
sources.  Construction fails (a TypeError) when a required field — a
constructor parameter with no default, excluding the receiver and the
variadic `kwargs` — is absent from the mapping; extra keys are absorbed by
the variadic parameter and the record keeps the merged mapping. -/
def constructAppConfig (params : List Param) (m : Dict) :
    Except Unit AppConfig :=
  if (requiredArgs params).all (fun r => (m r).isSome) then Except.ok m
  else Except.error ()

/-- The `for app_name, parsed_config in app_configs.items()` loop of
`parse_config`: resolve each app, construct its AppConfig, and on the first
TypeError stop with the BriefcaseConfigError built in the except-branch.
`ctor` is the AppConfig constructor (kept abstract so any cause of
TypeError is covered), `setOrder` the unspecified iteration order of the
Python set `missing_args`.  Returns the final value of `self.apps` together
with the raised error, if any. -/
def resolveApps (ctor : Dict → Except Unit AppConfig) (params : List Param)
    (setOrder : List String → List String) (cfg defs : List String)
    (opts : String → Value) :
    List (String × List (String × Value)) → List (String × AppConfig) →
      List (String × AppConfig) × Option BriefcaseError
  | [], acc => (acc, Option.none)
  | (app_name, parsed) :: rest, acc =>
    match ctor (resolveAppConfig cfg defs opts parsed) with
    | Except.ok c =>
      resolveApps ctor params setOrder cfg defs opts rest (acc ++ [(app_name, c)])
    | Except.error _ =>
      (acc, some (BriefcaseConfigError (incompleteMessage app_name
        (setOrder (missingArgs (requiredArgs params)
          (resolveAppConfig cfg defs opts parsed))))))

/-- The observable outcome of `BaseCommand.parse_config`: the final value
of the `self.apps` attribute (`Option.none` when the assignment
`self.apps = {}` was never reached) and the raised error, if any. -/
structure ParseOutcome where
  apps : Option (List (String × AppConfig))
  error : Option BriefcaseError

/-- `BaseCommand.parse_config`: opening the file raises FileNotFoundError
(modelled as `file = Option.none`) before `self.apps` is assigned, turned
into the "configuration file not found" BriefcaseConfigError; otherwise the
external parser's output (`file = some app_configs`, the collaborator
`briefcase.config.parse_config` is out of scope per the spec) is resolved
app by app. -/
def BaseCommand.parse_config (cmd : BaseCommand) (config_options : List String)
    (ctor : Dict → Except Unit AppConfig) (params : List Param)
    (setOrder : List String → List String)
    (file : Option (List (String × List (String × Value)))) : ParseOutcome :=
  match file with
  | Option.none =>
    { apps := Option.none,
      error := some (BriefcaseConfigError "configuration file not found") }
  | some app_configs =>
    let r := resolveApps ctor params setOrder config_options
      cmd.default_options cmd.options app_configs []
    { apps := some r.1, error := r.2 }

/-- The observable behaviour of one `main()` invocation. -/
structure RunResult where
  executed : Bool
  exitCode : Int
  stdoutLines : List String
  stderrLines : List String
deriving DecidableEq, Repr

/-- `briefcase.__main__.main`: on a BriefcaseError the message goes to
stdout when `error_code == 0` and to stderr otherwise, the command body is
skipped, and the process exits with the error's code; otherwise the command
body runs and the exit code is 0. -/
def main (parseError : Option BriefcaseError) : RunResult :=
  match parseError with
  | Option.none =>
    { executed := true, exitCode := 0, stdoutLines := [], stderrLines := [] }
  | some e =>
    { executed := false, exitCode := e.error_code,
      stdoutLines := if e.error_code = 0 then [e.msg] else [],
      stderrLines := if e.error_code = 0 then [] else [e.msg] }

/-- A concrete `AppConfig.__init__` signature used by the concrete runs:
`def __init__(self, appname, version, description="", **kwargs)`, so the
required fields are `appname` and `version`. -/
def sampleParams : List Param :=
  [⟨"self", false⟩, ⟨"appname", false⟩, ⟨"version", false⟩,
    ⟨"description", true⟩, ⟨"kwargs", false⟩]

/-- A concrete command state: `format` is the only default-bearing option
and every parsed option value is the string `zip`. -/
def sampleCmd : BaseCommand :=
  ⟨["format"], fun _ => Value.str "zip"⟩

/-- A file-config entry that satisfies the sample AppConfig signature. -/
def goodApp : String × List (String × Value) :=
  ("good", [("appname", Value.str "Good"), ("version", Value.str "one")])

/-- A file-config entry that is missing the required `version` field. -/
def badApp : String × List (String × Value) :=
  ("bad", [("appname", Value.str "Bad")])

/-- A second file-config entry that satisfies the sample signature. -/
def secondApp : String × List (String × Value) :=
  ("second", [("appname", Value.str "Second"), ("version", Value.str "two")])

/-- A file-config entry whose merged mapping has every required field. -/
def oddApp : String × List (String × Value) :=
  ("oops", [("appname", Value.str "A"), ("version", Value.str "v")])

/-- Helper: when the constructor succeeds on every pending application, the
loop appends one record per application, in order, and raises nothing. -/
lemma resolveApps_ok (params : List Param)
    (setOrder : List String → List String) (cfg defs : List String)
    (opts : String → Value) (l : List (String × List (String × Value))) :
    ∀ acc, (∀ p ∈ l, constructAppConfig params
        (resolveAppConfig cfg defs opts p.2)
        = Except.ok (resolveAppConfig cfg defs opts p.2)) →
      resolveApps (constructAppConfig params) params setOrder cfg defs opts l acc
        = (acc ++ l.map (fun p => (p.1, resolveAppConfig cfg defs opts p.2)),
          Option.none) := by
  induction l with
  | nil => intro acc _; simp [resolveApps]
  | cons p rest ih =>
    intro acc h
    obtain ⟨n, parsed⟩ := p
    have hp := h (n, parsed) (List.mem_cons_self _ _)
    simp only [resolveApps, hp]
    rw [ih _ (fun q hq => h q (List.mem_cons_of_mem _ hq))]
    simp

/-- Helper: the loop stops at the first application whose constructor
raises, leaving exactly the earlier records in `self.apps` and raising the
except-branch error for the failing application. -/
lemma resolveApps_fail (params : List Param)
    (setOrder : List String → List String) (cfg defs : List String)
    (opts : String → Value) (bad : String × List (String × Value))
    (rest : List (String × List (String × Value)))
    (hbad : constructAppConfig params (resolveAppConfig cfg defs opts bad.2)
      = Except.error ()) (pre : List (String × List (String × Value))) :
    ∀ acc, (∀ p ∈ pre, constructAppConfig params
        (resolveAppConfig cfg defs opts p.2)
        = Except.ok (resolveAppConfig cfg defs opts p.2)) →
      resolveApps (constructAppConfig params) params setOrder cfg defs opts
          (pre ++ bad :: rest) acc
        = (acc ++ pre.map (fun p => (p.1, resolveAppConfig cfg defs opts p.2)),
          some (BriefcaseConfigError (incompleteMessage bad.1
            (setOrder (missingArgs (requiredArgs params)
              (resolveAppConfig cfg defs opts bad.2)))))) := by
  induction pre with
  | nil =>
    intro acc _
    obtain ⟨n, parsed⟩ := bad
    simp only [List.nil_append, resolveApps, hbad]
    simp
  | cons p pre ih =>
    intro acc h
    obtain ⟨n, parsed⟩ := p
    have hp := h (n, parsed) (List.mem_cons_self _ _)
    simp only [List.cons_append, resolveApps, hp]
    simp only [List.append_eq]
    rw [ih _ (fun q hq => h q (List.mem_cons_of_mem _ hq))]
    simp

/-- Helper: with an arbitrary constructor — any cause of TypeError — the
first failure still produces the except-branch error for that
application. -/
lemma resolveApps_fail_any (ctor : Dict → Except Unit AppConfig)
    (params : List Param) (setOrder : List String → List String)
    (cfg defs : List String) (opts : String → Value)
    (bad : String × List (String × Value))
    (rest : List (String × List (String × Value)))
    (hbad : ctor (resolveAppConfig cfg defs opts bad.2) = Except.error ())
    (pre : List (String × List (String × Value))) :
    ∀ acc, (∀ p ∈ pre, ∃ c, ctor (resolveAppConfig cfg defs opts p.2)
        = Except.ok c) →
      (resolveApps ctor params setOrder cfg defs opts (pre ++ bad :: rest)
          acc).2
        = some (BriefcaseConfigError (incompleteMessage bad.1
            (setOrder (missingArgs (requiredArgs params)
              (resolveAppConfig cfg defs opts bad.2))))) := by
  induction pre with
  | nil =>
    intro acc _
    obtain ⟨n, parsed⟩ := bad
    simp only [List.nil_append, resolveApps, hbad]
  | cons p pre ih =>
    intro acc h
    obtain ⟨n, parsed⟩ := p
    obtain ⟨c, hp⟩ := h (n, parsed) (List.mem_cons_self _ _)
    simp only [List.cons_append, resolveApps, hp]
    exact ih _ (fun q hq => h q (List.mem_cons_of_mem _ hq))

/-- Claim C1: the resolved configuration is the three overlays in order —
for a config-relevant default-bearing option present in the file config the
file value wins over the seeded default; a default-bearing option absent
from the file config keeps its seeded command-line value; and a
config-relevant option that is not default-bearing always ends at its
command-line value, winning over the file config. -/
theorem claim_C1 (cfg defs : List String) (opts : String → Value)
    (raw : List (String × Value)) (k : String) :
    (∀ v, k ∈ cfg → k ∈ defs → raw.lookup k = some v →
      resolveAppConfig cfg defs opts raw k = some v)
    ∧ (k ∈ cfg → k ∈ defs → raw.lookup k = Option.none →
      resolveAppConfig cfg defs opts raw k = some (opts k))
    ∧ (k ∈ cfg → k ∉ defs →
      resolveAppConfig cfg defs opts raw k = some (opts k)) := by
  refine ⟨?_, ?_, ?_⟩
  · intro v h1 h2 h3
    simp [resolveAppConfig, dictUpdate, explicitLayer, rawDict, h1, h2, h3]
  · intro h1 h2 h3
    simp [resolveAppConfig, dictUpdate, explicitLayer, rawDict, defaultLayer,
      h1, h2, h3]
  · intro h1 h2
    simp [resolveAppConfig, dictUpdate, explicitLayer, h1, h2]

/-- Witness for C1 at a concrete option state: `format` is default-bearing
and overridden by the file, `name` is default-bearing and keeps its seed,
`template` is not default-bearing and beats the file config. -/
theorem claim_C1_witness :
    resolveAppConfig ["format", "name", "template"] ["format", "name"]
      (fun k => Value.str k) [("format", Value.str "tar"),
        ("template", Value.str "filetpl")] "format" = some (Value.str "tar")
    ∧ resolveAppConfig ["format", "name", "template"] ["format", "name"]
      (fun k => Value.str k) [("format", Value.str "tar"),
        ("template", Value.str "filetpl")] "name" = some (Value.str "name")
    ∧ resolveAppConfig ["format", "name", "template"] ["format", "name"]
      (fun k => Value.str k) [("format", Value.str "tar"),
        ("template", Value.str "filetpl")] "template"
      = some (Value.str "template") := by
  refine ⟨?_, ?_, ?_⟩
  · exact (claim_C1 _ _ _ _ _).1 (Value.str "tar") (by decide) (by decide) rfl
  · exact (claim_C1 _ _ _ _ _).2.1 (by decide) (by decide) rfl
  · exact (claim_C1 _ _ _ _ _).2.2 (by decide) (by decide)

/-- Claim C2: an option name is default-bearing iff a declaration with that
destination has a truthy default; under unique destinations this is exactly
truthiness of its own declared default, so falsy defaults are never
default-bearing; and the classification does not depend on the values
supplied at the prompt. -/
theorem claim_C2 (actions : List Action) (vals vals' : String → Value)
    (d : String) :
    (d ∈ (BaseCommand.init actions vals).default_options ↔
      ∃ a ∈ actions, a.dest = d ∧ a.default.truthy = true)
    ∧ ((actions.map Action.dest).Nodup → ∀ a ∈ actions,
      (a.dest ∈ (BaseCommand.init actions vals).default_options ↔
        a.default.truthy = true))
    ∧ (BaseCommand.init actions vals).default_options
      = (BaseCommand.init actions vals').default_options := by
  refine ⟨?_, ?_, rfl⟩
  · simp only [BaseCommand.init, defaultOptions, List.mem_map,
      List.mem_filter]
    constructor
    · rintro ⟨a, ⟨ha, ht⟩, hd⟩
      exact ⟨a, ha, hd, ht⟩
    · rintro ⟨a, ha, hd, ht⟩
      exact ⟨a, ⟨ha, ht⟩, hd⟩
  · intro hnodup a ha
    simp only [BaseCommand.init, defaultOptions, List.mem_map,
      List.mem_filter]
    constructor
    · rintro ⟨a', ⟨ha', ht'⟩, hd'⟩
      have : a' = a := List.inj_on_of_nodup_map hnodup ha' ha hd'
      exact this ▸ ht'
    · intro ht
      exact ⟨a, ⟨ha, ht⟩, rfl⟩

/-- Witness for C2 at concrete declarations: `format` has the truthy
default `"zip"` and is default-bearing, `template` has default `None` and
is not, `count` has the falsy default `0` and is not default-bearing
either; two different prompt states classify identically. -/
theorem claim_C2_witness :
    ("format" ∈ (BaseCommand.init [⟨"format", Value.str "zip"⟩,
        ⟨"template", Value.none⟩, ⟨"count", Value.int 0⟩]
        (fun _ => Value.none)).default_options ↔ true = true)
    ∧ ("count" ∈ (BaseCommand.init [⟨"format", Value.str "zip"⟩,
        ⟨"template", Value.none⟩, ⟨"count", Value.int 0⟩]
        (fun _ => Value.none)).default_options ↔ false = true)
    ∧ (BaseCommand.init [⟨"format", Value.str "zip"⟩,
        ⟨"template", Value.none⟩, ⟨"count", Value.int 0⟩]
        (fun _ => Value.none)).default_options
      = (BaseCommand.init [⟨"format", Value.str "zip"⟩,
        ⟨"template", Value.none⟩, ⟨"count", Value.int 0⟩]
        (fun _ => Value.str "tar")).default_options := by
  refine ⟨?_, ?_, ?_⟩
  · exact (claim_C2 [⟨"format", Value.str "zip"⟩, ⟨"template", Value.none⟩,
      ⟨"count", Value.int 0⟩] (fun _ => Value.none) (fun _ => Value.none)
      "format").2.1 (by decide) ⟨"format", Value.str "zip"⟩ (by decide)
  · exact (claim_C2 [⟨"format", Value.str "zip"⟩, ⟨"template", Value.none⟩,
      ⟨"count", Value.int 0⟩] (fun _ => Value.none) (fun _ => Value.none)
      "count").2.1 (by decide) ⟨"count", Value.int 0⟩ (by decide)
  · exact (claim_C2 [⟨"format", Value.str "zip"⟩, ⟨"template", Value.none⟩,
      ⟨"count", Value.int 0⟩] (fun _ => Value.none) (fun _ => Value.str "tar")
      "format").2.2

/-- Claim C4: every key of the resolved configuration is a config-relevant
option or a key of the RawAppConfig, and a file-config key outside the
declared option set passes through unchanged. -/
theorem claim_C4 (cfg defs : List String) (opts : String → Value)
    (raw : List (String × Value)) (k : String) :
    (∀ v, resolveAppConfig cfg defs opts raw k = some v →
      k ∈ cfg ∨ raw.lookup k ≠ Option.none)
    ∧ (k ∉ cfg → ∀ v, raw.lookup k = some v →
      resolveAppConfig cfg defs opts raw k = some v) := by
  constructor
  · intro v hv
    by_cases hcfg : k ∈ cfg
    · exact Or.inl hcfg
    · refine Or.inr ?_
      simp only [resolveAppConfig, dictUpdate, explicitLayer, defaultLayer,
        rawDict, hcfg, false_and, if_false] at hv
      intro hraw
      rw [hraw] at hv
      exact Option.noConfusion hv
  · intro hcfg v hv
    simp [resolveAppConfig, dictUpdate, explicitLayer, rawDict, hcfg, hv]

/-- Witness for C4: the key `bundle` is not config-relevant yet its file
value survives the merge, and every key the merge produces is accounted
for. -/
theorem claim_C4_witness :
    resolveAppConfig ["format"] ["format"] (fun k => Value.str k)
      [("bundle", Value.str "b")] "bundle" = some (Value.str "b")
    ∧ ("bundle" ∈ ["format"] ∨
      ([("bundle", Value.str "b")].lookup "bundle" ≠ Option.none)) := by
  constructor
  · exact (claim_C4 ["format"] ["format"] (fun k => Value.str k)
      [("bundle", Value.str "b")] "bundle").2 (by decide) (Value.str "b") rfl
  · exact (claim_C4 ["format"] ["format"] (fun k => Value.str k)
      [("bundle", Value.str "b")] "bundle").1 (Value.str "b")
      ((claim_C4 ["format"] ["format"] (fun k => Value.str k)
        [("bundle", Value.str "b")] "bundle").2 (by decide) (Value.str "b") rfl)

/-- Claim C5: a missing configuration file makes `parse_config` fail with
the "configuration file not found" ConfigError, and `self.apps` is never
populated — no application is resolved. -/
theorem claim_C5 (cmd : BaseCommand) (config_options : List String)
    (ctor : Dict → Except Unit AppConfig) (params : List Param)
    (setOrder : List String → List String) :
    (BaseCommand.parse_config cmd config_options ctor params setOrder
        Option.none).error
      = some (BriefcaseConfigError "configuration file not found")
    ∧ (BaseCommand.parse_config cmd config_options ctor params setOrder
        Option.none).apps = Option.none :=
  ⟨rfl, rfl⟩

/-- Claim C7: a successful run exits with code 0; a ConfigError exits
non-zero with its message on the error stream; an error whose code is 0 has
its message written to standard output instead; the exit code is always the
error's code. -/
theorem claim_C7 (m : String) (e : BriefcaseError) :
    (main Option.none).exitCode = 0
    ∧ (main Option.none).executed = true
    ∧ (main (some (BriefcaseConfigError m))).exitCode ≠ 0
    ∧ (main (some (BriefcaseConfigError m))).stderrLines = [m]
    ∧ (main (some (BriefcaseConfigError m))).stdoutLines = []
    ∧ (main (some e)).exitCode = e.error_code
    ∧ (main (some e)).stdoutLines
      = (if e.error_code = 0 then [e.msg] else [])
    ∧ (main (some e)).stderrLines
      = (if e.error_code = 0 then [] else [e.msg]) := by
  refine ⟨rfl, rfl, ?_, ?_, ?_, rfl, rfl, rfl⟩
  · simp [main, BriefcaseConfigError]
  · simp [main, BriefcaseConfigError]
  · simp [main, BriefcaseConfigError]

/-- Claim C6: the first application whose validation fails aborts the whole
resolution with that application's error — no later application is resolved
(the populated records are exactly those of earlier applications) — and the
command body never runs after a configuration failure. -/
theorem claim_C6 (cmd : BaseCommand) (config_options : List String)
    (params : List Param) (setOrder : List String → List String)
    (pre rest : List (String × List (String × Value)))
    (bad : String × List (String × Value))
    (hpre : ∀ p ∈ pre, constructAppConfig params
      (resolveAppConfig config_options cmd.default_options cmd.options p.2)
      = Except.ok
        (resolveAppConfig config_options cmd.default_options cmd.options p.2))
    (hbad : constructAppConfig params
      (resolveAppConfig config_options cmd.default_options cmd.options bad.2)
      = Except.error ()) :
    (BaseCommand.parse_config cmd config_options (constructAppConfig params)
        params setOrder (some (pre ++ bad :: rest))).error
      = some (BriefcaseConfigError (incompleteMessage bad.1
        (setOrder (missingArgs (requiredArgs params)
          (resolveAppConfig config_options cmd.default_options cmd.options
            bad.2)))))
    ∧ (∃ l, (BaseCommand.parse_config cmd config_options
        (constructAppConfig params) params setOrder
        (some (pre ++ bad :: rest))).apps = some l
        ∧ l.map Prod.fst = pre.map Prod.fst)
    ∧ (main (BaseCommand.parse_config cmd config_options
        (constructAppConfig params) params setOrder
        (some (pre ++ bad :: rest))).error).executed = false := by
  have hres := resolveApps_fail params setOrder config_options
    cmd.default_options cmd.options bad rest hbad pre [] hpre
  refine ⟨?_, ⟨pre.map (fun p => (p.1, resolveAppConfig config_options
    cmd.default_options cmd.options p.2)), ?_, ?_⟩, ?_⟩
  · simp [BaseCommand.parse_config, hres]
  · simp [BaseCommand.parse_config, hres]
  · simp
  · simp [BaseCommand.parse_config, hres, main]

/-- Witness for C6 at a concrete run: the second of three applications is
missing its `version`, so resolution stops there, only the first
application's record is kept, and the command body is skipped. -/
theorem claim_C6_witness :
    (BaseCommand.parse_config sampleCmd ["format"]
        (constructAppConfig sampleParams) sampleParams id
        (some ([goodApp] ++ badApp :: [("later", [])]))).error
      = some (BriefcaseConfigError (incompleteMessage badApp.1
        (id (missingArgs (requiredArgs sampleParams)
          (resolveAppConfig ["format"] sampleCmd.default_options
            sampleCmd.options badApp.2)))))
    ∧ (∃ l, (BaseCommand.parse_config sampleCmd ["format"]
        (constructAppConfig sampleParams) sampleParams id
        (some ([goodApp] ++ badApp :: [("later", [])]))).apps = some l
        ∧ l.map Prod.fst = [goodApp].map Prod.fst)
    ∧ (main (BaseCommand.parse_config sampleCmd ["format"]
        (constructAppConfig sampleParams) sampleParams id
        (some ([goodApp] ++ badApp :: [("later", [])]))).error).executed
      = false :=
  claim_C6 sampleCmd ["format"] sampleParams id [goodApp] [("later", [])]
    badApp
    (by intro p hp; simp only [List.mem_singleton] at hp; subst hp; rfl)
    (by rfl)

/-- Claim C8: when every application validates, `parse_config` produces
exactly one record per application name of the file parser's output, in
order — none dropped, none duplicated — and raises nothing. -/
theorem claim_C8 (cmd : BaseCommand) (config_options : List String)
    (params : List Param) (setOrder : List String → List String)
    (app_configs : List (String × List (String × Value)))
    (hnodup : (app_configs.map Prod.fst).Nodup)
    (hok : ∀ p ∈ app_configs, constructAppConfig params
      (resolveAppConfig config_options cmd.default_options cmd.options p.2)
      = Except.ok
        (resolveAppConfig config_options cmd.default_options cmd.options p.2)) :
    (BaseCommand.parse_config cmd config_options (constructAppConfig params)
        params setOrder (some app_configs)).apps
      = some (app_configs.map (fun p => (p.1, resolveAppConfig config_options
          cmd.default_options cmd.options p.2)))
    ∧ (app_configs.map (fun p => (p.1, resolveAppConfig config_options
        cmd.default_options cmd.options p.2))).map Prod.fst
      = app_configs.map Prod.fst
    ∧ ((app_configs.map (fun p => (p.1, resolveAppConfig config_options
        cmd.default_options cmd.options p.2))).map Prod.fst).Nodup
    ∧ (BaseCommand.parse_config cmd config_options (constructAppConfig params)
        params setOrder (some app_configs)).error = Option.none := by
  have hres := resolveApps_ok params setOrder config_options
    cmd.default_options cmd.options app_configs [] hok
  have hkeys : (app_configs.map (fun p => (p.1, resolveAppConfig config_options
      cmd.default_options cmd.options p.2))).map Prod.fst
      = app_configs.map Prod.fst := by simp
  refine ⟨?_, hkeys, ?_, ?_⟩
  · simp [BaseCommand.parse_config, hres]
  · rw [hkeys]; exact hnodup
  · simp [BaseCommand.parse_config, hres]

/-- Witness for C8: two valid applications resolve into exactly two
records, keyed like the parser output, with no error raised. -/
theorem claim_C8_witness :
    (BaseCommand.parse_config sampleCmd ["format"]
        (constructAppConfig sampleParams) sampleParams id
        (some [goodApp, secondApp])).apps
      = some ([goodApp, secondApp].map (fun p =>
          (p.1, resolveAppConfig ["format"] sampleCmd.default_options
            sampleCmd.options p.2)))
    ∧ ([goodApp, secondApp].map (fun p =>
        (p.1, resolveAppConfig ["format"] sampleCmd.default_options
          sampleCmd.options p.2))).map Prod.fst
      = [goodApp, secondApp].map Prod.fst
    ∧ (([goodApp, secondApp].map (fun p =>
        (p.1, resolveAppConfig ["format"] sampleCmd.default_options
          sampleCmd.options p.2))).map Prod.fst).Nodup
    ∧ (BaseCommand.parse_config sampleCmd ["format"]
        (constructAppConfig sampleParams) sampleParams id
        (some [goodApp, secondApp])).error = Option.none :=
  claim_C8 sampleCmd ["format"] sampleParams id [goodApp, secondApp]
    (by decide)
    (by
      intro p hp
      simp only [List.mem_cons, List.not_mem_nil, or_false] at hp
      rcases hp with h | h <;> subst h <;> rfl)

/-- Claim C9: when construction fails for the n-th application,
`parse_config` raises, and `self.apps` is left holding exactly the records
of the applications iterated before the failing one — neither cleared nor
rolled back. -/
theorem claim_C9 (cmd : BaseCommand) (config_options : List String)
    (params : List Param) (setOrder : List String → List String)
    (pre rest : List (String × List (String × Value)))
    (bad : String × List (String × Value))
    (hpre : ∀ p ∈ pre, constructAppConfig params
      (resolveAppConfig config_options cmd.default_options cmd.options p.2)
      = Except.ok
        (resolveAppConfig config_options cmd.default_options cmd.options p.2))
    (hbad : constructAppConfig params
      (resolveAppConfig config_options cmd.default_options cmd.options bad.2)
      = Except.error ()) :
    (BaseCommand.parse_config cmd config_options (constructAppConfig params)
        params setOrder (some (pre ++ bad :: rest))).apps
      = some (pre.map (fun p => (p.1, resolveAppConfig config_options
          cmd.default_options cmd.options p.2)))
    ∧ (BaseCommand.parse_config cmd config_options (constructAppConfig params)
        params setOrder (some (pre ++ bad :: rest))).error.isSome = true := by
  have hres := resolveApps_fail params setOrder config_options
    cmd.default_options cmd.options bad rest hbad pre [] hpre
  constructor
  · simp [BaseCommand.parse_config, hres]
  · simp [BaseCommand.parse_config, hres]

/-- Witness for C9: the third of three applications fails, and the two
records resolved before it remain in `self.apps` while the error is
raised. -/
theorem claim_C9_witness :
    (BaseCommand.parse_config sampleCmd ["format"]
        (constructAppConfig sampleParams) sampleParams id
        (some ([goodApp, secondApp] ++ badApp :: []))).apps
      = some ([goodApp, secondApp].map (fun p =>
          (p.1, resolveAppConfig ["format"] sampleCmd.default_options
            sampleCmd.options p.2)))
    ∧ (BaseCommand.parse_config sampleCmd ["format"]
        (constructAppConfig sampleParams) sampleParams id
        (some ([goodApp, secondApp] ++ badApp :: []))).error.isSome
      = true :=
  claim_C9 sampleCmd ["format"] sampleParams id [goodApp, secondApp] []
    badApp
    (by
      intro p hp
      simp only [List.mem_cons, List.not_mem_nil, or_false] at hp
      rcases hp with h | h <;> subst h <;> rfl)
    (by rfl)

/-- Claim C10: whatever makes the constructor raise a TypeError — the
constructor is arbitrary here — `parse_config` raises the ConfigError
reporting the application's configuration as incomplete, and when no
required field is actually absent the missing-field list in the message is
empty. -/
theorem claim_C10 (cmd : BaseCommand) (config_options : List String)
    (ctor : Dict → Except Unit AppConfig) (params : List Param)
    (setOrder : List String → List String)
    (pre rest : List (String × List (String × Value)))
    (bad : String × List (String × Value))
    (hso : ∀ l, List.Perm (setOrder l) l)
    (hpre : ∀ p ∈ pre, ∃ c, ctor
      (resolveAppConfig config_options cmd.default_options cmd.options p.2)
      = Except.ok c)
    (hbad : ctor
      (resolveAppConfig config_options cmd.default_options cmd.options bad.2)
      = Except.error ()) :
    (BaseCommand.parse_config cmd config_options ctor params setOrder
        (some (pre ++ bad :: rest))).error
      = some (BriefcaseConfigError (incompleteMessage bad.1
        (setOrder (missingArgs (requiredArgs params)
          (resolveAppConfig config_options cmd.default_options cmd.options
            bad.2)))))
    ∧ ((∀ r ∈ requiredArgs params,
        ((resolveAppConfig config_options cmd.default_options cmd.options
          bad.2) r).isSome = true) →
      (BaseCommand.parse_config cmd config_options ctor params setOrder
          (some (pre ++ bad :: rest))).error
        = some (BriefcaseConfigError (incompleteMessage bad.1 []))) := by
  have hres := resolveApps_fail_any ctor params setOrder config_options
    cmd.default_options cmd.options bad rest hbad pre [] hpre
  have h1 : (BaseCommand.parse_config cmd config_options ctor params setOrder
      (some (pre ++ bad :: rest))).error
      = some (BriefcaseConfigError (incompleteMessage bad.1
        (setOrder (missingArgs (requiredArgs params)
          (resolveAppConfig config_options cmd.default_options cmd.options
            bad.2))))) := by
    simp only [BaseCommand.parse_config]
    exact hres
  refine ⟨h1, ?_⟩
  intro hall
  have hmiss : missingArgs (requiredArgs params)
      (resolveAppConfig config_options cmd.default_options cmd.options bad.2)
      = [] := by
    simp only [missingArgs]
    rw [List.filter_eq_nil_iff]
    intro r hr hcontra
    rw [Option.isNone_iff_eq_none] at hcontra
    have h := hall r hr
    rw [hcontra] at h
    exact Bool.noConfusion h
  rw [h1, hmiss, (hso []).eq_nil]

/-- Witness for C10: a constructor that always raises — a TypeError whose
cause is not a missing field — still yields the "incomplete" ConfigError,
and since every required field is present in the merged mapping the
missing-field list in the message is empty. -/
theorem claim_C10_witness :
    (BaseCommand.parse_config sampleCmd ["format"]
        (fun _ => Except.error ()) sampleParams id
        (some ([] ++ oddApp :: []))).error
      = some (BriefcaseConfigError (incompleteMessage oddApp.1
        (id (missingArgs (requiredArgs sampleParams)
          (resolveAppConfig ["format"] sampleCmd.default_options
            sampleCmd.options oddApp.2)))))
    ∧ (BaseCommand.parse_config sampleCmd ["format"]
        (fun _ => Except.error ()) sampleParams id
        (some ([] ++ oddApp :: []))).error
      = some (BriefcaseConfigError (incompleteMessage oddApp.1 [])) :=
  ⟨(claim_C10 sampleCmd ["format"] (fun _ => Except.error ()) sampleParams id
      [] [] oddApp (fun l => List.Perm.refl l)
      (by intro p hp; exact absurd hp (List.not_mem_nil p)) rfl).1,
    (claim_C10 sampleCmd ["format"] (fun _ => Except.error ()) sampleParams id
      [] [] oddApp (fun l => List.Perm.refl l)
      (by intro p hp; exact absurd hp (List.not_mem_nil p)) rfl).2
      (by decide)⟩

/-- Claim C3 concerns the except-branch message.  The missing-field set it
computes is complete — here both `appname` and `version` — but the source
joins `missing_args`, a Python set, with no sorting: the enumeration order
of that set is not specified by the program (and varies with string-hash
randomization), so the message is not the sorted, deterministic listing the
spec requires.  Reversed enumeration is one possible run, and it is not
sorted. -/
theorem claim_C3_code_bug :
    missingArgs (requiredArgs sampleParams)
      (resolveAppConfig [] [] (fun _ => Value.none) [])
      = ["appname", "version"]
    ∧ (BaseCommand.parse_config ⟨[], fun _ => Value.none⟩ []
        (constructAppConfig sampleParams) sampleParams List.reverse
        (some [("myapp", [])])).error
      = some (BriefcaseConfigError
        (incompleteMessage "myapp" ["version", "appname"]))
    ∧ incompleteMessage "myapp" ["version", "appname"]
      ≠ incompleteMessage "myapp" ["appname", "version"]
    ∧ ¬ List.Sorted (fun a b : String => a ≤ b) ["version", "appname"] := by
  refine ⟨by decide, by decide, by decide, ?_⟩
  intro hs
  have hle : ("version" : String) ≤ "appname" :=
    List.rel_of_sorted_cons hs "appname" (by simp)
  have hlt : ("appname" : String) < "version" := by
    rw [String.lt_iff_toList_lt]
    decide
  exact absurd hle (not_le.mpr hlt)

end Briefcase
